import Mathlib

/-
Verification of the gonzobot conversation interrogation engine
(src/services/browser.py and src/phases/interrogate.py).

The Python code is shallowly embedded: browser I/O (Playwright calls) is
abstracted into oracles passed as function arguments — `resolve`/`query`
give the result of a selector lookup (`none` models a raised-and-caught
timeout), `reads` gives the successive `inner_text` reads of the response
element, and an `Env` carries the outcome of session navigation and of each
`send_message` call.  Everything else (control flow, string formatting,
list slicing, skipping, error capture) is translated statement by
statement from the source.
-/

namespace Gonzobot

/-- Python slicing `xs[:n]` for an int `n`: a negative stop counts from the
end of the list (`xs[:-k]` drops the last `k` elements, clamped at 0). -/
def pySliceTo {α : Type} (xs : List α) (n : Int) : List α :=
  if n < 0 then xs.take (xs.length - (-n).toNat) else xs.take n.toNat

/-- An input entry of `run_conversation`: a dict that may or may not carry a
"question" key.  `exchange.get("question", "")` is `question.getD ""`. -/
structure ExchangeIn where
  question : Option String
  deriving DecidableEq, Repr

/-- A completed exchange: `{"question": ..., "response": ...}`. -/
structure Exchange where
  question : String
  response : String
  deriving DecidableEq, Repr

/-- A conversation plan, as consumed by `interrogate`:  `topic`,
`opening_question`, and the optional `follow_ups` key (`none` models the
key being absent from the dict). -/
structure Plan where
  topic : String
  opening_question : String
  follow_ups : Option (List String)
  deriving DecidableEq, Repr

/-- A transcript as built by `interrogate`.  The `error` field is `some e`
exactly when the code adds the `"error"` key (the failed-conversation
branch). -/
structure Transcript where
  conversation_id : String
  topic : String
  exchanges : List Exchange
  timestamp : String
  error : Option String
  deriving DecidableEq, Repr

/-- The environment of one `run_conversation` call: `nav` is the outcome of
`DemeterAIBrowser.__aenter__` (launch + goto), and `send i` the outcome of
`browser.send_message` at loop iteration `i` (`Except.error e` models the
call raising an exception whose `str` is `e`). -/
structure Env where
  nav : Except String Unit
  send : Nat → Except String String

/-- The configuration values `interrogate` reads from `config`. -/
structure Config where
  url : String
  timeoutSeconds : Int
  maxConversations : Int
  maxExchanges : Int

/-- The `for i, exchange in enumerate(exchanges)` loop of
`run_conversation` (src/services/browser.py lines 195-219): an entry with a
missing or empty question is skipped; otherwise `send_message` runs, a
success appends `{question, response}`, and a raised exception is caught
and appended as `{question, "[ERROR: " + str(e) + "]"}` — the loop then
continues with the next entry. -/
def runLoop (send : Nat → Except String String) : Nat → List ExchangeIn → List Exchange
  | _, [] => []
  | i, ex :: rest =>
    let q := ex.question.getD ""
    if q = "" then runLoop send (i + 1) rest
    else
      match send i with
      | .ok r => ⟨q, r⟩ :: runLoop send (i + 1) rest
      | .error e => ⟨q, "[ERROR: " ++ e ++ "]"⟩ :: runLoop send (i + 1) rest

/-- `run_conversation` (src/services/browser.py lines 176-221): the
`async with DemeterAIBrowser(url, timeout)` acquisition may itself fail
(`nav`), in which case the exception propagates to the caller; otherwise
the exchange loop runs to completion and the results list is returned. -/
def runConversation (env : Env) (exchanges : List ExchangeIn) : Except String (List Exchange) :=
  match env.nav with
  | .error e => .error e
  | .ok _ => .ok (runLoop env.send 0 exchanges)

/-- Exchange-list construction in `interrogate` (src/phases/interrogate.py
lines 54-59): the opening question, then — when the `follow_ups` key is
present and the list non-empty — the follow-ups sliced by
`[:max_exchanges - 1]`. -/
def buildExchanges (plan : Plan) (maxExchanges : Int) : List ExchangeIn :=
  let base : List ExchangeIn := [⟨some plan.opening_question⟩]
  match plan.follow_ups with
  | none => base
  | some fs =>
    if fs.isEmpty then base
    else base ++ (pySliceTo fs (maxExchanges - 1)).map (fun f => ⟨some f⟩)

/-- One iteration of the conversation loop of `interrogate`
(src/phases/interrogate.py lines 49-84): run the conversation; a success
yields the normal transcript, a raised exception is caught and yields the
failed transcript whose id carries the `_FAILED` suffix, whose single
exchange holds the error, and which carries the `"error"` key.  `ts i`
abstracts the `datetime.now()` timestamp strings of iteration `i`. -/
def mkTranscript (envs : Nat → Env) (ts : Nat → String) (maxEx : Int) (i : Nat) (plan : Plan) : Transcript :=
  match runConversation (envs i) (buildExchanges plan maxEx) with
  | .ok completed =>
    { conversation_id := "conv_" ++ ts i ++ "_" ++ toString i
      topic := plan.topic
      exchanges := completed
      timestamp := ts i
      error := none }
  | .error e =>
    { conversation_id := "conv_" ++ ts i ++ "_" ++ toString i ++ "_FAILED"
      topic := plan.topic
      exchanges := [⟨plan.opening_question, "[FAILED: " ++ e ++ "]"⟩]
      timestamp := ts i
      error := some e }

/-- The `for i, plan in enumerate(plans_to_run)` loop of `interrogate`,
appending one transcript per plan. -/
def interrogateGo (envs : Nat → Env) (ts : Nat → String) (maxEx : Int) : Nat → List Plan → List Transcript
  | _, [] => []
  | i, p :: rest => mkTranscript envs ts maxEx i p :: interrogateGo envs ts maxEx (i + 1) rest

/-- `interrogate` (src/phases/interrogate.py): slices the plans to
`max_conversations_per_run` and runs the loop. -/
def interrogate (cfg : Config) (envs : Nat → Env) (ts : Nat → String) (plans : List Plan) : List Transcript :=
  interrogateGo envs ts cfg.maxExchanges 0 (pySliceTo plans cfg.maxConversations)

/-- An opaque page-element handle (its identity is all that matters here). -/
abbrev Element := String

/-- Python `str.strip()`: the string with leading and trailing whitespace
removed (defined by structural recursion over the character list so that
it evaluates on concrete inputs). -/
def pyStrip (s : String) : String :=
  String.mk (((s.data.dropWhile Char.isWhitespace).reverse.dropWhile Char.isWhitespace).reverse)

/-- The multi-selector lookup loop used throughout `send_message` and
`_wait_for_response` (src/services/browser.py lines 74-84, 90-103,
137-151): try each candidate selector in list order, keep the first that
resolves, swallow failures (`none`) and move on. -/
def locateFirst {α : Type} (resolve : String → Option α) : List String → Option α
  | [] => none
  | s :: rest =>
    match resolve s with
    | some el => some el
    | none => locateFirst resolve rest

/-- The candidate selectors of the `chat_input` role:
`SELECTORS["chat_input"].split(", ")`.  The CSS quote characters inside the
attribute tests are elided from the literals — only the identity and list
order of the candidates matter for the properties below. -/
def chatInputSelectors : List String :=
  ["textarea[placeholder*=Ask]", "textarea[placeholder*=question]", "input[type=text]"]

/-- The candidate selectors of the `send_button` role:
`SELECTORS["send_button"].split(", ")`. -/
def sendButtonSelectors : List String :=
  ["button[type=submit]", "button:has-text(Send)"]

/-- The candidate selectors `_wait_for_response` tries for the response
element (src/services/browser.py lines 136-143). -/
def responseSelectors : List String :=
  ["[data-role=assistant]", ".assistant-message", "[class*=assistant]",
   ".message:last-child", "[class*=response]:last-of-type"]

/-- The chat-input location step of `send_message` (src/services/browser.py
lines 74-87): the first resolving candidate, or the raised
`RuntimeError("Could not find chat input field")` — the ElementNotFound
case — when none resolves. -/
def locateChatInput (resolve : String → Option Element) : Except String Element :=
  match locateFirst resolve chatInputSelectors with
  | some el => .ok el
  | none => .error "Could not find chat input field"

/-- Instrumented `_wait_for_response` (src/services/browser.py lines
125-173).  `query` is `page.query_selector`; `bodyText` what
`page.inner_text("body")` would return; `reads k` the k-th `inner_text`
read of the response element.  The second component counts the element
reads performed.  If no response element is found, the whole body text is
returned (trimmed, per `.strip()`).  Otherwise the element is read, read
again after 2s, and — only if the two reads differ — read once more after
5s; whatever that last read holds is returned, trimmed. -/
def waitForResponseInstr (query : String → Option Element) (bodyText : String)
    (reads : Nat → String) : String × Nat :=
  match locateFirst query responseSelectors with
  | none => (pyStrip bodyText, 0)
  | some _ =>
    let t0 := reads 0
    let t1 := reads 1
    if t1 ≠ t0 then (pyStrip (reads 2), 3) else (pyStrip t0, 2)

/-- The value `_wait_for_response` returns. -/
def waitForResponse (query : String → Option Element) (bodyText : String)
    (reads : Nat → String) : String :=
  (waitForResponseInstr query bodyText reads).1

/-- The three ways the body of the scoped session acquisition can finish:
a normal return, a raised exception, or task cancellation (which in the
embedded runtime surfaces at an await point exactly like an exception). -/
inductive BodyOutcome (α : Type) where
  | normal (value : α)
  | errored (message : String)
  | cancelled
  deriving DecidableEq, Repr

/-- The browser resources held by a `DemeterAIBrowser` session. -/
structure BrowserState where
  browserOpen : Bool
  playwrightRunning : Bool
  deriving DecidableEq, Repr

/-- `__aenter__` (src/services/browser.py lines 32-42) once playwright and
the browser are up: both resources held. -/
def openSession : BrowserState :=
  { browserOpen := true, playwrightRunning := true }

/-- `__aexit__` (src/services/browser.py lines 44-49): close the browser if
set, stop playwright if set. -/
def closeSession (s : BrowserState) : BrowserState :=
  let s1 := if s.browserOpen then { s with browserOpen := false } else s
  if s1.playwrightRunning then { s1 with playwrightRunning := false } else s1

/-- The `async with DemeterAIBrowser(url, timeout)` block of
`run_conversation`, with Python's context-manager semantics: when
`__aenter__` succeeds (`navOk`), `__aexit__` runs after the body on every
exit path — normal return, raised exception, or cancellation; when
`__aenter__` itself raises (navigation failure), `__aexit__` is not
invoked. -/
def withBrowser {α : Type} (navOk : Bool)
    (body : BrowserState → BodyOutcome α × BrowserState) : BodyOutcome α × BrowserState :=
  let s1 := openSession
  if navOk then
    let r := body s1
    (r.1, closeSession r.2)
  else
    (BodyOutcome.errored "navigation failed", s1)

/-- How the two branches of the per-exchange `try/except` of
`run_conversation` record a `send_message` outcome: the response itself on
success, the `"[ERROR: " + str(e) + "]"` marker on a caught exception. -/
def markResponse (r : Except String String) : String :=
  match r with
  | .ok s => s
  | .error e => "[ERROR: " ++ e ++ "]"

/- Concrete instances used by the closed witness and counterexample
statements below. -/

/-- A `send_message` environment whose first exchange raises and whose later
exchanges succeed; navigation succeeds. -/
def envW3 : Env :=
  { nav := .ok (), send := fun i => if i = 0 then .error "boom" else .ok "fine" }

/-- Three input entries: a question, a missing question, a question. -/
def exsW3 : List ExchangeIn := [⟨some "q1"⟩, ⟨none⟩, ⟨some "q2"⟩]

/-- A plan with five follow-ups (the scenario of the spec). -/
def planW5 : Plan := ⟨"topic", "open-q", some ["f1", "f2", "f3", "f4", "f5"]⟩

/-- A three-plan batch. -/
def plansW4 : List Plan := [⟨"t0", "q0", none⟩, ⟨"t1", "q1", none⟩, ⟨"t2", "q2", none⟩]

/-- Navigation fails for conversation 1 only. -/
def envsW4 : Nat → Env :=
  fun i => if i = 1 then { nav := .error "SessionOpenFailed", send := fun _ => .ok "r" }
           else { nav := .ok (), send := fun _ => .ok "r" }

/-- A fixed timestamp oracle. -/
def tsW : Nat → String := fun _ => "20251012"

/-- A configuration allowing five conversations of up to three exchanges. -/
def cfgW4 : Config := ⟨"http://demeter", 120, 5, 3⟩

/-- A configuration capped at one conversation per run. -/
def cfgCex6 : Config := ⟨"http://demeter", 120, 1, 3⟩

/-- Two planned conversations. -/
def plansCex6 : List Plan := [⟨"topic-a", "qa", none⟩, ⟨"topic-b", "qb", none⟩]

/-- An environment where everything succeeds. -/
def envsOk : Nat → Env := fun _ => { nav := .ok (), send := fun _ => .ok "resp" }

/-- A query oracle that resolves every selector. -/
def foundQuery : String → Option Element := fun _ => some "el"

/-- A read stream that never repeats: the rendered content is still
changing at every poll. -/
def changingReads : Nat → String := fun k => toString k

/-- A read stream whose first three reads all differ and which is constant
(`"d"`) from read 3 on: a run of identical reads starts at poll index 3. -/
def runAfterReads : Nat → String := fun k => if k ≤ 2 then toString k else "d"

/-- A read stream that is already stable at the first read. -/
def stableReads : Nat → String := fun _ => "steady"

/-- A line of 101 characters, standing for the echoed question line (longer
than any plausible filler-line threshold). -/
def questionLine : String := String.mk (List.replicate 101 'Q')

/-- A captured content-root text: filler, then the long question line, then
the answer. -/
def capturedText : String := "Intro\n" ++ questionLine ++ "\nTheAnswer"

/-- A stable read stream whose content is `capturedText`. -/
def capturedReads : Nat → String := fun _ => capturedText

/-- A session body that is cancelled part-way. -/
def cancelledBody : BrowserState → BodyOutcome Unit × BrowserState :=
  fun s => (BodyOutcome.cancelled, s)

/- Helper lemmas. -/

theorem runLoop_eq_filterMap (send : Nat → Except String String) (exs : List ExchangeIn) :
    ∀ i : Nat, runLoop send i exs = (exs.enumFrom i).filterMap (fun pr =>
      if pr.2.question.getD "" = "" then none
      else some ⟨pr.2.question.getD "", markResponse (send pr.1)⟩) := by
  induction exs with
  | nil => intro i; rfl
  | cons ex rest ih =>
    intro i
    show runLoop send i (ex :: rest)
        = ((i, ex) :: rest.enumFrom (i + 1)).filterMap _
    rw [List.filterMap_cons]
    simp only [runLoop]
    by_cases h : ex.question.getD "" = ""
    · simp [h, ih (i + 1)]
    · cases hs : send i <;> simp [h, hs, markResponse, ih (i + 1)]

theorem runLoop_questions (send : Nat → Except String String) (exs : List ExchangeIn) :
    ∀ i : Nat, (runLoop send i exs).map Exchange.question
      = exs.filterMap (fun ex =>
          if ex.question.getD "" = "" then none else some (ex.question.getD "")) := by
  induction exs with
  | nil => intro i; rfl
  | cons ex rest ih =>
    intro i
    rw [List.filterMap_cons]
    simp only [runLoop]
    by_cases h : ex.question.getD "" = ""
    · simp [h, ih (i + 1)]
    · cases hs : send i <;> simp [h, hs, ih (i + 1)]

theorem runLoop_no_blank (send : Nat → Except String String) (exs : List ExchangeIn) :
    ∀ i : Nat, ∀ r ∈ runLoop send i exs, r.question ≠ "" := by
  induction exs with
  | nil => intro i r hr; simp [runLoop] at hr
  | cons ex rest ih =>
    intro i r hr
    simp only [runLoop] at hr
    by_cases h : ex.question.getD "" = ""
    · rw [if_pos h] at hr
      exact ih (i + 1) r hr
    · rw [if_neg h] at hr
      cases hs : send i with
      | ok v =>
        rw [hs] at hr
        rcases List.mem_cons.mp hr with h1 | h2
        · subst h1; exact h
        · exact ih (i + 1) r h2
      | error e =>
        rw [hs] at hr
        rcases List.mem_cons.mp hr with h1 | h2
        · subst h1; exact h
        · exact ih (i + 1) r h2

theorem interrogateGo_length (envs : Nat → Env) (ts : Nat → String) (maxEx : Int)
    (ps : List Plan) : ∀ i : Nat, (interrogateGo envs ts maxEx i ps).length = ps.length := by
  induction ps with
  | nil => intro i; rfl
  | cons p rest ih => intro i; simp [interrogateGo, ih (i + 1)]

theorem interrogateGo_getElem? (envs : Nat → Env) (ts : Nat → String) (maxEx : Int)
    (ps : List Plan) : ∀ i j : Nat,
      (interrogateGo envs ts maxEx i ps)[j]? = ps[j]?.map (mkTranscript envs ts maxEx (i + j)) := by
  induction ps with
  | nil => intro i j; simp [interrogateGo]
  | cons p rest ih =>
    intro i j
    cases j with
    | zero => simp [interrogateGo]
    | succ j =>
      have e : i + 1 + j = i + (j + 1) := by omega
      simp only [interrogateGo, List.getElem?_cons_succ, ih (i + 1) j, e]

theorem mkTranscript_topic (envs : Nat → Env) (ts : Nat → String) (maxEx : Int)
    (i : Nat) (p : Plan) : (mkTranscript envs ts maxEx i p).topic = p.topic := by
  unfold mkTranscript
  cases runConversation (envs i) (buildExchanges p maxEx) <;> rfl

theorem mkTranscript_of_nav_error (envs : Nat → Env) (ts : Nat → String) (maxEx : Int)
    (i : Nat) (p : Plan) (e : String) (h : (envs i).nav = .error e) :
    mkTranscript envs ts maxEx i p =
      ⟨"conv_" ++ ts i ++ "_" ++ toString i ++ "_FAILED", p.topic,
        [⟨p.opening_question, "[FAILED: " ++ e ++ "]"⟩], ts i, some e⟩ := by
  unfold mkTranscript runConversation
  rw [h]

theorem mkTranscript_of_nav_ok (envs : Nat → Env) (ts : Nat → String) (maxEx : Int)
    (i : Nat) (p : Plan) (h : (envs i).nav = .ok ()) :
    mkTranscript envs ts maxEx i p =
      ⟨"conv_" ++ ts i ++ "_" ++ toString i, p.topic,
        runLoop (envs i).send 0 (buildExchanges p maxEx), ts i, none⟩ := by
  unfold mkTranscript runConversation
  rw [h]

theorem locateFirst_eq_find_bind {α : Type} (resolve : String → Option α) (cs : List String) :
    locateFirst resolve cs = (cs.find? (fun c => (resolve c).isSome)).bind resolve := by
  induction cs with
  | nil => rfl
  | cons c rest ih =>
    simp only [locateFirst, List.find?]
    cases h : resolve c with
    | some el => simp [h]
    | none => simp [h, ih]

theorem locateFirst_eq_none {α : Type} (resolve : String → Option α) (cs : List String)
    (h : ∀ c ∈ cs, resolve c = none) : locateFirst resolve cs = none := by
  induction cs with
  | nil => rfl
  | cons c rest ih =>
    simp only [locateFirst]
    rw [h c (List.mem_cons_self c rest)]
    exact ih (fun b hb => h b (List.mem_cons_of_mem c hb))

theorem closeSession_closes (s : BrowserState) :
    (closeSession s).browserOpen = false ∧ (closeSession s).playwrightRunning = false := by
  rcases s with ⟨b, p⟩
  cases b <;> cases p <;> exact ⟨rfl, rfl⟩

/- Claim theorems. -/

/-- C1 (counterexample): on a read stream that never repeats — the rendered
content is still changing at every poll, so no run of identical reads of any
length ever occurs — `_wait_for_response` does not fail with a
ResponseTimeout: it returns its third read (`"2"`) as the final answer,
i.e. last-seen, still-changing text is surfaced as a successful response. -/
theorem no_timeout_counterexample :
    changingReads 0 ≠ changingReads 1 ∧ changingReads 1 ≠ changingReads 2
      ∧ changingReads 2 ≠ changingReads 3
      ∧ waitForResponse foundQuery "" changingReads = changingReads 2 :=
  ⟨by decide, by decide, by decide, by rfl⟩

/-- C1 (amended): the stability check of `_wait_for_response` never fails:
once a response element is found, if the second read differs from the first
the detector returns the third read, trimmed, as the final answer — with no
condition at all on whether the content has stopped changing. -/
theorem wait_for_response_returns_changing_text
    (query : String → Option Element) (el : Element) (bodyText : String)
    (reads : Nat → String)
    (hfound : locateFirst query responseSelectors = some el)
    (hchanging : reads 1 ≠ reads 0) :
    waitForResponse query bodyText reads = pyStrip (reads 2) := by
  unfold waitForResponse waitForResponseInstr
  rw [hfound]
  simp [hchanging]

/-- C1 (witness): the changing stream, concretely. -/
theorem wait_for_response_returns_changing_text_concrete :
    waitForResponse foundQuery "body" changingReads = "2" := by
  rw [wait_for_response_returns_changing_text foundQuery "el" "body" changingReads
    (by rfl) (by decide)]
  rfl

/-- C2 (counterexample): on a stream whose reads are `"0", "1", "2"` and
then constantly `"d"`, a run of identical reads starts at poll index 3
(three consecutive `"d"` reads shown), so with `required_stable_reads = 3`
the claimed detector would return `"d"` at poll index 5; the code instead
stops after its third read (read count 3) and returns `"2"`, which is not
the stable value. -/
theorem stability_run_counterexample :
    runAfterReads 3 = "d" ∧ runAfterReads 4 = "d" ∧ runAfterReads 5 = "d"
      ∧ waitForResponseInstr foundQuery "" runAfterReads = ("2", 3)
      ∧ ("2" : String) ≠ "d" :=
  ⟨by rfl, by rfl, by rfl, by rfl, by decide⟩

/-- C2 (amended): once a response element is found, `_wait_for_response`
performs exactly two reads and returns the first when the first two reads
agree, and otherwise performs exactly three reads and returns the third —
regardless of where (or whether) a run of identical snapshots occurs in the
polled content. -/
theorem wait_for_response_read_schedule
    (query : String → Option Element) (el : Element) (bodyText : String)
    (reads : Nat → String)
    (hfound : locateFirst query responseSelectors = some el) :
    (reads 1 = reads 0 → waitForResponseInstr query bodyText reads = (pyStrip (reads 0), 2))
      ∧ (reads 1 ≠ reads 0 → waitForResponseInstr query bodyText reads = (pyStrip (reads 2), 3)) := by
  unfold waitForResponseInstr
  rw [hfound]
  constructor <;> intro h <;> simp [h]

/-- C2 (witness): a stream stable from the start is returned after exactly
two reads. -/
theorem wait_for_response_read_schedule_concrete :
    waitForResponseInstr foundQuery "body" stableReads = ("steady", 2) := by
  rw [(wait_for_response_read_schedule foundQuery "el" "body" stableReads (by rfl)).1 (by rfl)]
  rfl

/-- C3: any `send_message` failure inside the exchange loop of
`run_conversation` is caught and recorded as an Exchange whose response is
the `"[ERROR: ...]"` marker carrying the failure cause; the loop never
propagates it (the result is always `.ok`), and every subsequent entry with
a non-empty question is still attempted and contributes its entry in input
order — stated as the full characterization of the loop's output over the
enumerated input. -/
theorem exchange_failures_isolated (env : Env) (exchanges : List ExchangeIn)
    (hnav : env.nav = .ok ()) :
    runConversation env exchanges =
      .ok ((exchanges.enumFrom 0).filterMap (fun pr =>
        if pr.2.question.getD "" = "" then none
        else some ⟨pr.2.question.getD "", markResponse (env.send pr.1)⟩)) := by
  unfold runConversation
  rw [hnav, runLoop_eq_filterMap env.send exchanges 0]

/-- C3 (witness): the first exchange raises `"boom"`, is recorded as an
error marker, and the later exchange still runs and succeeds. -/
theorem exchange_failures_isolated_concrete :
    runConversation envW3 exsW3 = .ok [⟨"q1", "[ERROR: boom]"⟩, ⟨"q2", "fine"⟩] := by
  rw [exchange_failures_isolated envW3 exsW3 (by rfl)]
  rfl

/-- C4: if session acquisition fails for conversation `i` (navigation
raises `e`), `interrogate` still emits a transcript at position `i`: its id
carries the `_FAILED` suffix, it records the plan's topic, its single
exchange holds the `"[FAILED: ...]"` error, and it carries the error field —
while the transcripts at positions `i-1` and `i+1` are the normal,
unmarked ones (plain id, no error field, exchanges produced by the loop). -/
theorem session_failure_isolated
    (cfg : Config) (envs : Nat → Env) (ts : Nat → String) (plans : List Plan)
    (i : Nat) (p q r : Plan) (e : String)
    (hone : 1 ≤ i)
    (hp : (pySliceTo plans cfg.maxConversations)[i]? = some p)
    (hq : (pySliceTo plans cfg.maxConversations)[i - 1]? = some q)
    (hr : (pySliceTo plans cfg.maxConversations)[i + 1]? = some r)
    (hfail : (envs i).nav = .error e)
    (hprev : (envs (i - 1)).nav = .ok ())
    (hnext : (envs (i + 1)).nav = .ok ()) :
    (interrogate cfg envs ts plans)[i]? = some
        ⟨"conv_" ++ ts i ++ "_" ++ toString i ++ "_FAILED", p.topic,
          [⟨p.opening_question, "[FAILED: " ++ e ++ "]"⟩], ts i, some e⟩
      ∧ (interrogate cfg envs ts plans)[i - 1]? = some
        ⟨"conv_" ++ ts (i - 1) ++ "_" ++ toString (i - 1), q.topic,
          runLoop (envs (i - 1)).send 0 (buildExchanges q cfg.maxExchanges), ts (i - 1), none⟩
      ∧ (interrogate cfg envs ts plans)[i + 1]? = some
        ⟨"conv_" ++ ts (i + 1) ++ "_" ++ toString (i + 1), r.topic,
          runLoop (envs (i + 1)).send 0 (buildExchanges r cfg.maxExchanges), ts (i + 1), none⟩ := by
  have hg := interrogateGo_getElem? envs ts cfg.maxExchanges (pySliceTo plans cfg.maxConversations) 0
  refine ⟨?_, ?_, ?_⟩
  · rw [interrogate, hg i, hp]
    simp only [Option.map_some', Nat.zero_add]
    rw [mkTranscript_of_nav_error envs ts cfg.maxExchanges i p e hfail]
  · rw [interrogate, hg (i - 1), hq]
    simp only [Option.map_some', Nat.zero_add]
    rw [mkTranscript_of_nav_ok envs ts cfg.maxExchanges (i - 1) q hprev]
  · rw [interrogate, hg (i + 1), hr]
    simp only [Option.map_some', Nat.zero_add]
    rw [mkTranscript_of_nav_ok envs ts cfg.maxExchanges (i + 1) r hnext]

/-- C4 (witness): in a three-plan batch whose middle session fails to open,
transcript 1 is the failed stub and transcripts 0 and 2 are normal. -/
theorem session_failure_isolated_concrete :
    (interrogate cfgW4 envsW4 tsW plansW4)[1]? = some
        ⟨"conv_20251012_1_FAILED", "t1", [⟨"q1", "[FAILED: SessionOpenFailed]"⟩],
          "20251012", some "SessionOpenFailed"⟩
      ∧ (interrogate cfgW4 envsW4 tsW plansW4)[0]? = some
        ⟨"conv_20251012_0", "t0", [⟨"q0", "r"⟩], "20251012", none⟩
      ∧ (interrogate cfgW4 envsW4 tsW plansW4)[2]? = some
        ⟨"conv_20251012_2", "t2", [⟨"q2", "r"⟩], "20251012", none⟩ := by
  have h := session_failure_isolated cfgW4 envsW4 tsW plansW4 1
    ⟨"t1", "q1", none⟩ ⟨"t0", "q0", none⟩ ⟨"t2", "q2", none⟩ "SessionOpenFailed"
    (by decide) (by rfl) (by rfl) (by rfl) (by rfl) (by rfl) (by rfl)
  refine ⟨h.1.trans (by rfl), h.2.1.trans (by rfl), h.2.2.trans (by rfl)⟩

/-- C5: for a plan whose `follow_ups` list has length `F` and a limit
`M ≥ 1`, the exchange list `interrogate` builds is the opening question
followed by the first `min F (M-1)` follow-ups in plan order, and has
length `min F (M-1) + 1`. -/
theorem build_exchanges_capped (plan : Plan) (fs : List String) (M : Int)
    (hfs : plan.follow_ups = some fs) (hM : 1 ≤ M) :
    buildExchanges plan M
        = ⟨some plan.opening_question⟩ :: (fs.take (M - 1).toNat).map (fun f => ⟨some f⟩)
      ∧ (buildExchanges plan M).length = min fs.length (M - 1).toNat + 1 := by
  have hslice : pySliceTo fs (M - 1) = fs.take (M - 1).toNat := by
    unfold pySliceTo
    rw [if_neg (by omega)]
  have hmain : buildExchanges plan M
      = ⟨some plan.opening_question⟩ :: (fs.take (M - 1).toNat).map (fun f => ⟨some f⟩) := by
    unfold buildExchanges
    rw [hfs]
    cases fs with
    | nil => simp
    | cons f ft => simp [hslice]
  refine ⟨hmain, ?_⟩
  rw [hmain]
  simp [Nat.min_comm]

/-- C5 (witness): the spec's scenario — five follow-ups, `M = 3` — yields
the opening question plus the first two follow-ups, length 3. -/
theorem build_exchanges_capped_concrete :
    buildExchanges planW5 3 = [⟨some "open-q"⟩, ⟨some "f1"⟩, ⟨some "f2"⟩]
      ∧ (buildExchanges planW5 3).length = 3 := by
  have h := build_exchanges_capped planW5 ["f1", "f2", "f3", "f4", "f5"] 3 (by rfl) (by decide)
  refine ⟨h.1.trans (by rfl), h.2.trans (by rfl)⟩

/-- C6 (counterexample): with `max_conversations_per_run = 1` and two
planned conversations, `interrogate` returns a single transcript — not one
per planned conversation. -/
theorem transcript_per_plan_counterexample :
    (interrogate cfgCex6 envsOk tsW plansCex6).length = 1
      ∧ plansCex6.length = 2 ∧ (1 : Nat) ≠ 2 :=
  ⟨by rfl, by rfl, by decide⟩

/-- C6 (amended): `interrogate` returns exactly one transcript per plan
among the first `max_conversations_per_run` plans (the `[:max]` slice), in
the same order as the input plans — transcript `j` carries the topic of
plan `j` of the sliced list. -/
theorem interrogate_one_transcript_per_capped_plan
    (cfg : Config) (envs : Nat → Env) (ts : Nat → String) (plans : List Plan) :
    (interrogate cfg envs ts plans).length = (pySliceTo plans cfg.maxConversations).length
      ∧ ∀ j : Nat, ((interrogate cfg envs ts plans)[j]?).map Transcript.topic
          = ((pySliceTo plans cfg.maxConversations)[j]?).map Plan.topic := by
  constructor
  · exact interrogateGo_length envs ts cfg.maxExchanges _ 0
  · intro j
    rw [interrogate, interrogateGo_getElem? envs ts cfg.maxExchanges _ 0 j]
    cases h : (pySliceTo plans cfg.maxConversations)[j]? with
    | none => rfl
    | some p => simp [mkTranscript_topic]

/-- C7: the multi-selector lookup loop returns the result of the first
candidate (in list order) that resolves, regardless of later candidates —
stated as equality with find-first —, returns `none` when no candidate
resolves, and in that case the chat-input location step of `send_message`
fails with the `RuntimeError` (ElementNotFound) rather than yielding an
element. -/
theorem locate_first_resolving_candidate (resolve : String → Option Element)
    (cs : List String) :
    locateFirst resolve cs = (cs.find? (fun c => (resolve c).isSome)).bind resolve
      ∧ ((∀ c ∈ cs, resolve c = none) → locateFirst resolve cs = none)
      ∧ ((∀ c ∈ chatInputSelectors, resolve c = none) →
          locateChatInput resolve = .error "Could not find chat input field") := by
  refine ⟨locateFirst_eq_find_bind resolve cs, fun h => locateFirst_eq_none resolve cs h, fun h => ?_⟩
  unfold locateChatInput
  rw [locateFirst_eq_none resolve chatInputSelectors h]

/-- C8: once the session is acquired, the scoped `async with` acquisition
of `run_conversation` runs `__aexit__` on every exit path of the body —
normal return, raised error, or cancellation — and `__aexit__` closes the
browser and stops playwright, so no session resource is left held. -/
theorem session_always_released {α : Type} (navOk : Bool)
    (body : BrowserState → BodyOutcome α × BrowserState)
    (hnav : navOk = true) :
    ((withBrowser navOk body).2).browserOpen = false
      ∧ ((withBrowser navOk body).2).playwrightRunning = false := by
  subst hnav
  unfold withBrowser
  simp only [if_true]
  exact closeSession_closes (body openSession).2

/-- C8 (witness): a body cancelled mid-conversation still leaves both
resources released. -/
theorem session_always_released_concrete :
    ((withBrowser true cancelledBody).2).browserOpen = false
      ∧ ((withBrowser true cancelledBody).2).playwrightRunning = false :=
  session_always_released true cancelledBody rfl

/-- C9 (counterexample): a captured text containing a line of 101
characters (exceeding any filler-line threshold up to 100) is returned
whole by `_wait_for_response` — not partitioned at that line: the result
is the entire captured text, which differs from the part after the long
line (`"TheAnswer"`). -/
theorem extraction_partition_counterexample :
    100 < questionLine.length
      ∧ waitForResponse foundQuery "" capturedReads = capturedText
      ∧ capturedText ≠ "TheAnswer" :=
  ⟨by decide, by rfl, by decide⟩

/-- C9 (amended): `_wait_for_response` never partitions the captured text:
once a response element is found and the content is stable, the whole
captured text is returned unchanged (up to whitespace trimming), whether or
not it contains a line exceeding any length threshold. -/
theorem extraction_returns_whole_text
    (query : String → Option Element) (el : Element) (bodyText : String)
    (reads : Nat → String)
    (hfound : locateFirst query responseSelectors = some el)
    (hstable : reads 1 = reads 0) :
    waitForResponse query bodyText reads = pyStrip (reads 0) := by
  unfold waitForResponse waitForResponseInstr
  rw [hfound]
  simp [hstable]

/-- C9 (witness): the concrete captured text with its over-long line is
returned whole. -/
theorem extraction_returns_whole_text_concrete :
    waitForResponse foundQuery "body" capturedReads = capturedText := by
  rw [extraction_returns_whole_text foundQuery "el" "body" capturedReads (by rfl) (by rfl)]
  rfl

/-- C10: the conversation loop of `run_conversation` silently skips every
input entry whose question key is missing or empty, and the returned list
has exactly one entry per input entry with a non-empty question, in input
order (its questions are precisely those questions), each entry holding
both a question and a response; no returned entry has an empty question. -/
theorem conversation_skips_blank_questions (send : Nat → Except String String)
    (exchanges : List ExchangeIn) :
    (runLoop send 0 exchanges).map Exchange.question
        = exchanges.filterMap (fun ex =>
            if ex.question.getD "" = "" then none else some (ex.question.getD ""))
      ∧ ∀ r ∈ runLoop send 0 exchanges, r.question ≠ "" :=
  ⟨runLoop_questions send exchanges 0, runLoop_no_blank send exchanges 0⟩

end Gonzobot
